import Mathlib

/-!
Verification of the BLE peripheral GATT application (`app.py`): a shallow
embedding of the entity tree (Application / Service / Characteristic /
Descriptor), the property and method dispatch, the advertisement builder and
the pairing agent, together with theorems checking the specification's
claims against this embedding.

Conventions of the embedding:
* Python dicts become insertion-ordered association lists
  (`List (key × value)`); `d[k] = v` is `dictSet`, `d[k]` is `dictGet`.
* D-Bus exceptions become the `DBusError` sum type; a raising method returns
  `Except DBusError _` (or an `Option DBusError` paired with the
  post-state, when the claim is about the state being left unchanged).
* Byte strings / `dbus.Array(..., signature="y")` become `List Nat`.
* Side effects other than field updates (marking a device trusted,
  quitting the GLib main loop) become an explicit `Effect` trace.
-/

/-- The D-Bus error classes declared at the top of `app.py` (plus `Rejected`,
declared next to the agent). -/
inductive DBusError where
  | InvalidArgs
  | NotSupported
  | NotPermitted
  | InvalidValueLength
  | Failed
  | Rejected
  deriving DecidableEq, Repr

/-- Python dict lookup `d[k]` on an insertion-ordered association list. -/
def dictGet {α β : Type} [DecidableEq α] (m : List (α × β)) (k : α) : Option β :=
  match m with
  | [] => none
  | (k', v) :: rest => if k' = k then some v else dictGet rest k

/-- Python dict assignment `d[k] = v`: replace the value at an existing key
in place (keeping its insertion position), otherwise append a new entry. -/
def dictSet {α β : Type} [DecidableEq α] (m : List (α × β)) (k : α) (v : β) :
    List (α × β) :=
  match m with
  | [] => [(k, v)]
  | (k', v') :: rest => if k' = k then (k, v) :: rest else (k', v') :: dictSet rest k v

/-- Folding a sequence of dict assignments over an initial dict. -/
def dictSetList {α β : Type} [DecidableEq α] (m : List (α × β))
    (l : List (α × β)) : List (α × β) :=
  l.foldl (fun acc kv => dictSet acc kv.1 kv.2) m

/-! ## Interface-name constants (`app.py` top of file) -/

def DBUS_OM_IFACE : String := "org.freedesktop.DBus.ObjectManager"
def DBUS_PROP_IFACE : String := "org.freedesktop.DBus.Properties"
def GATT_SERVICE_IFACE : String := "org.bluez.GattService1"
def GATT_CHRC_IFACE : String := "org.bluez.GattCharacteristic1"
def GATT_DESC_IFACE : String := "org.bluez.GattDescriptor1"
def LE_ADVERTISEMENT_IFACE : String := "org.bluez.LEAdvertisement1"

/-! ## The entity tree -/

/-- A value stored in an entity's per-interface property mapping. -/
inductive PropValue where
  | str : String → PropValue
  | bool : Bool → PropValue
  | flags : List String → PropValue
  | objPaths : List String → PropValue
  deriving DecidableEq, Repr

/-- One entity's property mapping for one interface (`a{sv}`). -/
abbrev InnerProps := List (String × PropValue)

/-- One entity's full property set (`a{sa{sv}}`): interface → properties. -/
abbrev EntityProps := List (String × InnerProps)

/-- `Descriptor.__init__` state: the index passed at construction, the UUID
and the flags.  The path is derived from the owning characteristic. -/
structure Descriptor where
  index : Nat
  uuid : String
  flags : List String
  deriving DecidableEq, Repr

/-- `Characteristic.__init__` state: index, UUID, flags and the owned
descriptor list (`add_descriptor` appends).  The owning service is a
back-reference, supplied where needed. -/
structure Characteristic where
  index : Nat
  uuid : String
  flags : List String
  descriptors : List Descriptor
  deriving DecidableEq, Repr

/-- `Service.__init__` state: index, UUID, `primary` flag and the owned
characteristic list (`add_characteristic` appends). -/
structure Service where
  index : Nat
  uuid : String
  primary : Bool
  characteristics : List Characteristic
  deriving DecidableEq, Repr

/-- `Application`: the root, owning the service list (`add_service`
appends). -/
structure Application where
  services : List Service
  deriving DecidableEq, Repr

/-- `Service.PATH_BASE`. -/
def PATH_BASE : String := "/org/bluez/example/service"

/-- `Service.__init__`: `self.path = self.PATH_BASE + str(index)`. -/
def servicePath (s : Service) : String := PATH_BASE ++ toString s.index

/-- `Characteristic.__init__`:
`self.path = service.path + "/char" + str(index)`. -/
def chrcPath (s : Service) (c : Characteristic) : String :=
  servicePath s ++ "/char" ++ toString c.index

/-- `Descriptor.__init__`:
`self.path = characteristic.path + "/desc" + str(index)`. -/
def descPath (s : Service) (c : Characteristic) (d : Descriptor) : String :=
  chrcPath s c ++ "/desc" ++ toString d.index

/-- `Service.get_characteristic_paths`. -/
def Service.get_characteristic_paths (s : Service) : List String :=
  s.characteristics.map (chrcPath s)

/-- `Characteristic.get_descriptor_paths` (the owning service is needed to
form the characteristic's own path). -/
def Characteristic.get_descriptor_paths (s : Service) (c : Characteristic) :
    List String :=
  c.descriptors.map (descPath s c)

/-- `Service.get_properties`. -/
def Service.get_properties (s : Service) : EntityProps :=
  [(GATT_SERVICE_IFACE,
    [("UUID", PropValue.str s.uuid),
     ("Primary", PropValue.bool s.primary),
     ("Characteristics", PropValue.objPaths s.get_characteristic_paths)])]

/-- `Characteristic.get_properties`. -/
def Characteristic.get_properties (s : Service) (c : Characteristic) :
    EntityProps :=
  [(GATT_CHRC_IFACE,
    [("Service", PropValue.str (servicePath s)),
     ("UUID", PropValue.str c.uuid),
     ("Flags", PropValue.flags c.flags),
     ("Descriptors", PropValue.objPaths (Characteristic.get_descriptor_paths s c))])]

/-- `Descriptor.get_properties`. -/
def Descriptor.get_properties (s : Service) (c : Characteristic)
    (d : Descriptor) : EntityProps :=
  [(GATT_DESC_IFACE,
    [("Characteristic", PropValue.str (chrcPath s c)),
     ("UUID", PropValue.str d.uuid),
     ("Flags", PropValue.flags d.flags)])]

/-- The body of the innermost loop of `GetManagedObjects`:
`response[desc.get_path()] = desc.get_properties()`. -/
def gmoDescStep (s : Service) (c : Characteristic)
    (r : List (String × EntityProps)) (d : Descriptor) :
    List (String × EntityProps) :=
  dictSet r (descPath s c d) (Descriptor.get_properties s c d)

/-- The body of the middle loop of `GetManagedObjects`:
`response[chrc.get_path()] = chrc.get_properties()`, then the loop over the
characteristic's descriptors. -/
def gmoChrcStep (s : Service) (r : List (String × EntityProps))
    (c : Characteristic) : List (String × EntityProps) :=
  c.descriptors.foldl (gmoDescStep s c)
    (dictSet r (chrcPath s c) (Characteristic.get_properties s c))

/-- The body of the outer loop of `GetManagedObjects`:
`response[service.get_path()] = service.get_properties()`, then the loop
over the service's characteristics. -/
def gmoServiceStep (r : List (String × EntityProps)) (s : Service) :
    List (String × EntityProps) :=
  s.characteristics.foldl (gmoChrcStep s)
    (dictSet r (servicePath s) s.get_properties)

/-- `Application.GetManagedObjects`: one pass over services, then each
service's characteristics, then each characteristic's descriptors, storing
`response[entity.get_path()] = entity.get_properties()` into one dict
(starting from `response = {}`). -/
def Application.GetManagedObjects (app : Application) :
    List (String × EntityProps) :=
  app.services.foldl gmoServiceStep []

/-- The snapshot entries contributed by one characteristic (itself, then
its descriptors), in traversal order. -/
def chrcEntries (s : Service) (c : Characteristic) :
    List (String × EntityProps) :=
  (chrcPath s c, Characteristic.get_properties s c) ::
    c.descriptors.map fun d => (descPath s c d, Descriptor.get_properties s c d)

/-- The snapshot entries contributed by one service (itself, then its
characteristics with their descriptors), in traversal order. -/
def serviceEntries (s : Service) : List (String × EntityProps) :=
  (servicePath s, s.get_properties) :: s.characteristics.flatMap (chrcEntries s)

/-- The entities reachable from the root, in the traversal order of
`GetManagedObjects`, each with its path and full property set. -/
def Application.entityEntries (app : Application) :
    List (String × EntityProps) :=
  app.services.flatMap serviceEntries

/-- The paths of all live entities, in traversal order. -/
def Application.entityPaths (app : Application) : List String :=
  app.entityEntries.map Prod.fst

/-! ## Per-entity `GetAll` dispatch (`DBUS_PROP_IFACE`) -/

/-- `Service.GetAll`. -/
def Service.GetAll (s : Service) (interface : String) :
    Except DBusError InnerProps :=
  if interface ≠ GATT_SERVICE_IFACE then .error .InvalidArgs
  else .ok ((dictGet s.get_properties GATT_SERVICE_IFACE).getD [])

/-- `Characteristic.GetAll`. -/
def Characteristic.GetAll (s : Service) (c : Characteristic)
    (interface : String) : Except DBusError InnerProps :=
  if interface ≠ GATT_CHRC_IFACE then .error .InvalidArgs
  else .ok ((dictGet (Characteristic.get_properties s c) GATT_CHRC_IFACE).getD [])

/-- `Descriptor.GetAll`. -/
def Descriptor.GetAll (s : Service) (c : Characteristic) (d : Descriptor)
    (interface : String) : Except DBusError InnerProps :=
  if interface ≠ GATT_DESC_IFACE then .error .InvalidArgs
  else .ok ((dictGet (Descriptor.get_properties s c d) GATT_DESC_IFACE).getD [])

/-! ## The concrete tree built by `Application.__init__` -/

/-- `TestDescriptor.__init__` (uuid `...def2`, flags read/write). -/
def TestDescriptor (index : Nat) : Descriptor :=
  { index := index
    uuid := "12345678-1234-5678-1234-56789abcdef2"
    flags := ["read", "write"] }

/-- `CharacteristicUserDescriptionDescriptor.__init__` tree data
(uuid `2901`, flags read/write). -/
def CharacteristicUserDescriptionDescriptor (index : Nat) : Descriptor :=
  { index := index
    uuid := "2901"
    flags := ["read", "write"] }

/-- `TestEncryptDescriptor.__init__` (uuid `...def4`). -/
def TestEncryptDescriptor (index : Nat) : Descriptor :=
  { index := index
    uuid := "12345678-1234-5678-1234-56789abcdef4"
    flags := ["encrypt-read", "encrypt-write"] }

/-- `TestSecureDescriptor.__init__` (uuid `...def6`). -/
def TestSecureDescriptor (index : Nat) : Descriptor :=
  { index := index
    uuid := "12345678-1234-5678-1234-56789abcdef6"
    flags := ["secure-read", "secure-write"] }

/-- `TestCharacteristic.__init__`: flags include writable-auxiliaries;
adds `TestDescriptor(0)` then `CharacteristicUserDescriptionDescriptor(1)`. -/
def TestCharacteristic (index : Nat) : Characteristic :=
  { index := index
    uuid := "12345678-1234-5678-1234-56789abcdef1"
    flags := ["read", "write", "writable-auxiliaries"]
    descriptors := [TestDescriptor 0, CharacteristicUserDescriptionDescriptor 1] }

/-- `TestEncryptCharacteristic.__init__`: adds `TestEncryptDescriptor(2)`
then `CharacteristicUserDescriptionDescriptor(3)`. -/
def TestEncryptCharacteristic (index : Nat) : Characteristic :=
  { index := index
    uuid := "12345678-1234-5678-1234-56789abcdef3"
    flags := ["encrypt-read", "encrypt-write"]
    descriptors :=
      [TestEncryptDescriptor 2, CharacteristicUserDescriptionDescriptor 3] }

/-- `TestSecureCharacteristic.__init__`: adds `TestSecureDescriptor(2)`
then `CharacteristicUserDescriptionDescriptor(3)`. -/
def TestSecureCharacteristic (index : Nat) : Characteristic :=
  { index := index
    uuid := "12345678-1234-5678-1234-56789abcdef5"
    flags := ["secure-read", "secure-write"]
    descriptors :=
      [TestSecureDescriptor 2, CharacteristicUserDescriptionDescriptor 3] }

/-- `VivaldiS1Service.__init__`: primary service with the three test
characteristics at indices 0, 1, 2. -/
def VivaldiS1Service (index : Nat) : Service :=
  { index := index
    uuid := "12634d89-d598-4874-8e86-7d042ee07ba7"
    primary := true
    characteristics :=
      [TestCharacteristic 0, TestEncryptCharacteristic 1,
       TestSecureCharacteristic 2] }

/-- `Application.__init__`: adds `VivaldiS1Service(bus, 2)`. -/
def theApplication : Application :=
  { services := [VivaldiS1Service 2] }

/-- The spec's construction-order path claim: each characteristic's path
suffix index equals its position among its siblings (0 for the first child
constructed, 1 for the second, ...), and likewise for descriptors. -/
def pathsMatchConstructionOrder (app : Application) : Prop :=
  ∀ s ∈ app.services,
    (∀ i : Fin s.characteristics.length,
       chrcPath s (s.characteristics.get i) =
         servicePath s ++ "/char" ++ toString i.val)
    ∧ ∀ c ∈ s.characteristics, ∀ j : Fin c.descriptors.length,
        descPath s c (c.descriptors.get j) =
          chrcPath s c ++ "/desc" ++ toString j.val

/-- Sibling index uniqueness: within each service the characteristic
indices are pairwise distinct, and within each characteristic the
descriptor indices are pairwise distinct. -/
def siblingIndicesNodup (app : Application) : Prop :=
  ∀ s ∈ app.services,
    (s.characteristics.map Characteristic.index).Nodup
    ∧ ∀ c ∈ s.characteristics, (c.descriptors.map Descriptor.index).Nodup

/-! ## Read/Write/Notify dispatch -/

/-- The `a{sv}` options argument of `ReadValue` / `WriteValue`. -/
abbrev Options := List (String × PropValue)

/-- Default `Characteristic.ReadValue`: raises `NotSupported`. -/
def Characteristic.ReadValue (options : Options) :
    Except DBusError (List Nat) :=
  .error .NotSupported

/-- Default `Characteristic.WriteValue`: raises `NotSupported`. -/
def Characteristic.WriteValue (value : List Nat) (options : Options) :
    Option DBusError :=
  some .NotSupported

/-- Default `Characteristic.StartNotify`: raises `NotSupported`. -/
def Characteristic.StartNotify : Option DBusError :=
  some .NotSupported

/-- Default `Characteristic.StopNotify`: raises `NotSupported`. -/
def Characteristic.StopNotify : Option DBusError :=
  some .NotSupported

/-- Default `Descriptor.ReadValue`: raises `NotSupported`. -/
def Descriptor.ReadValue (options : Options) :
    Except DBusError (List Nat) :=
  .error .NotSupported

/-- Default `Descriptor.WriteValue`: raises `NotSupported`. -/
def Descriptor.WriteValue (value : List Nat) (options : Options) :
    Option DBusError :=
  some .NotSupported

/-- `CharacteristicUserDescriptionDescriptor.__init__` captures
`self.writable = "writable-auxiliaries" in characteristic.flags` and the
initial value `array.array("B", b"This is a characteristic for testing")`. -/
def cudInitialValue : List Nat :=
  ("This is a characteristic for testing".toList).map Char.toNat

/-- The mutable per-instance state of each concrete descriptor class.  Only
`CharacteristicUserDescriptionDescriptor` has mutable state (`writable`,
fixed at construction, and `value`); the other three are stateless. -/
inductive DescriptorImpl where
  | testDescriptor
  | characteristicUserDescriptionDescriptor (writable : Bool) (value : List Nat)
  | testEncryptDescriptor
  | testSecureDescriptor
  deriving DecidableEq, Repr

/-- `CharacteristicUserDescriptionDescriptor.__init__`, as a function of the
owning characteristic's flags. -/
def CharacteristicUserDescriptionDescriptor.init (chrcFlags : List String) :
    DescriptorImpl :=
  .characteristicUserDescriptionDescriptor
    (chrcFlags.contains "writable-auxiliaries") cudInitialValue

/-- `WriteValue` dispatch over the concrete descriptor classes.  Only
`CharacteristicUserDescriptionDescriptor` overrides `WriteValue`
(raising `NotPermitted` when not writable, otherwise storing the value);
every other class falls to the base `Descriptor.WriteValue` default.
Returns the raised error (if any) together with the post-state. -/
def DescriptorImpl.WriteValue :
    DescriptorImpl → List Nat → Options → Option DBusError × DescriptorImpl
  | .characteristicUserDescriptionDescriptor writable value₀, value, _ =>
      if !writable then
        (some .NotPermitted,
         .characteristicUserDescriptionDescriptor writable value₀)
      else
        (none, .characteristicUserDescriptionDescriptor writable value)
  | d, value, options => (Descriptor.WriteValue value options, d)

/-- The mutable per-instance state of each concrete characteristic class
(each holds just `self.value`). -/
inductive CharacteristicImpl where
  | testCharacteristic (value : List Nat)
  | testEncryptCharacteristic (value : List Nat)
  | testSecureCharacteristic (value : List Nat)
  deriving DecidableEq, Repr

/-- `StartNotify` dispatch over the concrete characteristic classes: none of
them overrides it, so every one falls to the base default. -/
def CharacteristicImpl.StartNotify (c : CharacteristicImpl) :
    Option DBusError :=
  Characteristic.StartNotify

/-- `StopNotify` dispatch over the concrete characteristic classes: none of
them overrides it, so every one falls to the base default. -/
def CharacteristicImpl.StopNotify (c : CharacteristicImpl) :
    Option DBusError :=
  Characteristic.StopNotify

/-! ## The advertisement builder -/

/-- A value of the advertisement property dict (the shapes used by
`Advertisement.get_properties`). -/
inductive AdvValue where
  | str : String → AdvValue
  | bool : Bool → AdvValue
  | strs : List String → AdvValue
  | natKeyed : List (Nat × List Nat) → AdvValue
  | strKeyed : List (String × List Nat) → AdvValue
  deriving DecidableEq, Repr

/-- `Advertisement.__init__` state: the advertising type plus the seven
optional fields, all `None` at construction. -/
structure Advertisement where
  ad_type : String
  service_uuids : Option (List String)
  manufacturer_data : Option (List (Nat × List Nat))
  solicit_uuids : Option (List String)
  service_data : Option (List (String × List Nat))
  local_name : Option String
  include_tx_power : Option Bool
  data : Option (List (Nat × List Nat))
  deriving DecidableEq, Repr

/-- `Advertisement.__init__(bus, index, advertising_type)`. -/
def Advertisement.init (advertising_type : String) : Advertisement :=
  { ad_type := advertising_type
    service_uuids := none
    manufacturer_data := none
    solicit_uuids := none
    service_data := none
    local_name := none
    include_tx_power := none
    data := none }

/-- One conditional insertion of `Advertisement.get_properties`:
`if self.x is not None: properties[key] = f(self.x)`. -/
def optEntry {α : Type} (key : String) (o : Option α) (f : α → AdvValue) :
    List (String × AdvValue) :=
  match o with
  | some x => [(key, f x)]
  | none => []

/-- The `properties` dict built by `Advertisement.get_properties`, in source
order: `Type` unconditionally, then each optional field when not `None`. -/
def Advertisement.adProperties (a : Advertisement) :
    List (String × AdvValue) :=
  [("Type", AdvValue.str a.ad_type)]
    ++ optEntry "ServiceUUIDs" a.service_uuids AdvValue.strs
    ++ optEntry "SolicitUUIDs" a.solicit_uuids AdvValue.strs
    ++ optEntry "ManufacturerData" a.manufacturer_data AdvValue.natKeyed
    ++ optEntry "ServiceData" a.service_data AdvValue.strKeyed
    ++ optEntry "LocalName" a.local_name AdvValue.str
    ++ optEntry "IncludeTxPower" a.include_tx_power AdvValue.bool
    ++ optEntry "Data" a.data AdvValue.natKeyed

/-- `Advertisement.get_properties`: the properties wrapped under the
advertisement interface. -/
def Advertisement.get_properties (a : Advertisement) :
    List (String × List (String × AdvValue)) :=
  [(LE_ADVERTISEMENT_IFACE, a.adProperties)]

/-- `Advertisement.GetAll`. -/
def Advertisement.GetAll (a : Advertisement) (interface : String) :
    Except DBusError (List (String × AdvValue)) :=
  if interface ≠ LE_ADVERTISEMENT_IFACE then .error .InvalidArgs
  else .ok ((dictGet a.get_properties LE_ADVERTISEMENT_IFACE).getD [])

/-- `Advertisement.add_service_uuid` (lazy list init, then append). -/
def Advertisement.add_service_uuid (a : Advertisement) (uuid : String) :
    Advertisement :=
  { a with service_uuids := some ((a.service_uuids.getD []) ++ [uuid]) }

/-- `Advertisement.add_solicit_uuid` (lazy list init, then append). -/
def Advertisement.add_solicit_uuid (a : Advertisement) (uuid : String) :
    Advertisement :=
  { a with solicit_uuids := some ((a.solicit_uuids.getD []) ++ [uuid]) }

/-- `Advertisement.add_manufacturer_data` (lazy dict init, then
`self.manufacturer_data[manuf_code] = data`). -/
def Advertisement.add_manufacturer_data (a : Advertisement)
    (manuf_code : Nat) (data : List Nat) : Advertisement :=
  { a with
    manufacturer_data := some (dictSet (a.manufacturer_data.getD []) manuf_code data) }

/-- `Advertisement.add_service_data` (lazy dict init, then
`self.service_data[uuid] = data`). -/
def Advertisement.add_service_data (a : Advertisement) (uuid : String)
    (data : List Nat) : Advertisement :=
  { a with
    service_data := some (dictSet (a.service_data.getD []) uuid data) }

/-- `Advertisement.add_local_name`: after a dead lazy init of `""`,
unconditionally stores the new name. -/
def Advertisement.add_local_name (a : Advertisement) (name : String) :
    Advertisement :=
  { a with local_name := some name }

/-- `Advertisement.add_data` (lazy dict init, then
`self.data[ad_type] = data`). -/
def Advertisement.add_data (a : Advertisement) (ad_type : Nat)
    (data : List Nat) : Advertisement :=
  { a with data := some (dictSet (a.data.getD []) ad_type data) }

/-- `TestAdvertisement.__init__`. -/
def TestAdvertisement : Advertisement :=
  let a := Advertisement.init "peripheral"
  let a := a.add_manufacturer_data 0xFFFF [0x00, 0x01, 0x02, 0x03, 0x04]
  let a := a.add_service_data "9999" [0x00, 0x01, 0x02, 0x03, 0x04]
  let a := a.add_local_name "Vivaldi"
  let a := { a with include_tx_power := some true }
  a.add_data 0x26 [0x01, 0x01, 0x00]

/-! ## The pairing agent and the main-loop callbacks

Each handler's observable side effects (`set_trusted(device)`, which sets
the `Trusted` property on the device object, and `mainloop.quit()`) are
recorded as an ordered `Effect` trace; the operator's reply to `ask(...)`
is passed in as the `answer` argument. -/

/-- An observable side effect of a callback handler. -/
inductive Effect where
  | setTrusted : String → Effect
  | quitMainLoop : Effect
  deriving DecidableEq, Repr

/-- `register_app_cb`: logs only. -/
def register_app_cb : List Effect := []

/-- `register_app_error_cb`: logs, then `mainloop.quit()`. -/
def register_app_error_cb (error : String) : List Effect :=
  [.quitMainLoop]

/-- `register_ad_cb`: logs only. -/
def register_ad_cb : List Effect := []

/-- `register_ad_error_cb`: logs, then `mainloop.quit()`. -/
def register_ad_error_cb (error : String) : List Effect :=
  [.quitMainLoop]

/-- `Advertisement.Release`: logs only. -/
def Advertisement.Release : List Effect := []

/-- `Agent.Release`: `mainloop.quit()` only when `self.exit_on_release`. -/
def Agent.Release (exit_on_release : Bool) : List Effect :=
  if exit_on_release then [.quitMainLoop] else []

/-- `Agent.AuthorizeService`: accepts on the reply `"yes"`, otherwise
raises `Rejected`; never touches trust. -/
def Agent.AuthorizeService (device uuid answer : String) :
    List Effect × Except DBusError Unit :=
  if answer = "yes" then ([], .ok ()) else ([], .error .Rejected)

/-- `Agent.RequestPinCode`: marks the device trusted, then returns the
operator's PIN reply. -/
def Agent.RequestPinCode (device answer : String) :
    List Effect × Except DBusError String :=
  ([.setTrusted device], .ok answer)

/-- `Agent.RequestPasskey`: marks the device trusted, then returns the
operator's passkey reply (the `dbus.UInt32` conversion of the reply string
is abstracted away: it does not affect the trace or the error channel). -/
def Agent.RequestPasskey (device answer : String) :
    List Effect × Except DBusError String :=
  ([.setTrusted device], .ok answer)

/-- `Agent.DisplayPasskey`: logs only. -/
def Agent.DisplayPasskey (device : String) (passkey entered : Nat) :
    List Effect := []

/-- `Agent.DisplayPinCode`: logs only. -/
def Agent.DisplayPinCode (device pincode : String) : List Effect := []

/-- `Agent.RequestConfirmation`: on the reply `"yes"` marks the device
trusted and returns; otherwise raises `Rejected`. -/
def Agent.RequestConfirmation (device : String) (passkey : Nat)
    (answer : String) : List Effect × Except DBusError Unit :=
  if answer = "yes" then ([.setTrusted device], .ok ())
  else ([], .error .Rejected)

/-- `Agent.RequestAuthorization`: accepts on the reply `"yes"`, otherwise
raises `Rejected`; never touches trust. -/
def Agent.RequestAuthorization (device answer : String) :
    List Effect × Except DBusError Unit :=
  if answer = "yes" then ([], .ok ()) else ([], .error .Rejected)

/-- `Agent.Cancel`: logs only. -/
def Agent.Cancel : List Effect := []

/-- The effect-bearing callback entry points of the program: the two
registration reply/error callback pairs, `Advertisement.Release` and every
`Agent` method.  (The entity-tree handlers — `GetManagedObjects`, `GetAll`,
`ReadValue`, `WriteValue`, `StartNotify`, `StopNotify` — are pure: they are
modelled above without any `Effect` channel, and none of them references
the main loop.) -/
inductive Handler where
  | registerAppCb
  | registerAppErrorCb
  | registerAdCb
  | registerAdErrorCb
  | advertisementRelease
  | agentRelease
  | agentAuthorizeService
  | agentRequestPinCode
  | agentRequestPasskey
  | agentDisplayPasskey
  | agentDisplayPinCode
  | agentRequestConfirmation
  | agentRequestAuthorization
  | agentCancel
  deriving DecidableEq, Repr

/-- The effect trace of one invocation of a handler, given the agent's
`exit_on_release` flag, the device/uuid arguments and the operator's
reply. -/
def handlerEffects (exit_on_release : Bool) (device uuid answer : String) :
    Handler → List Effect
  | .registerAppCb => register_app_cb
  | .registerAppErrorCb => register_app_error_cb "err"
  | .registerAdCb => register_ad_cb
  | .registerAdErrorCb => register_ad_error_cb "err"
  | .advertisementRelease => Advertisement.Release
  | .agentRelease => Agent.Release exit_on_release
  | .agentAuthorizeService => (Agent.AuthorizeService device uuid answer).1
  | .agentRequestPinCode => (Agent.RequestPinCode device answer).1
  | .agentRequestPasskey => (Agent.RequestPasskey device answer).1
  | .agentDisplayPasskey => Agent.DisplayPasskey device 0 0
  | .agentDisplayPinCode => Agent.DisplayPinCode device uuid
  | .agentRequestConfirmation => (Agent.RequestConfirmation device 0 answer).1
  | .agentRequestAuthorization => (Agent.RequestAuthorization device answer).1
  | .agentCancel => Agent.Cancel

/-! ## Helper lemmas about the dict model -/

theorem dictGet_dictSet_self {α β : Type} [DecidableEq α]
    (m : List (α × β)) (k : α) (v : β) : dictGet (dictSet m k v) k = some v := by
  induction m with
  | nil => simp [dictGet, dictSet]
  | cons hd tl ih =>
      obtain ⟨k', v'⟩ := hd
      by_cases h : k' = k
      · simp [dictGet, dictSet, h]
      · simp [dictGet, dictSet, h, ih]

theorem dictGet_dictSet_ne {α β : Type} [DecidableEq α]
    (m : List (α × β)) (k k' : α) (v : β) (h : k ≠ k') :
    dictGet (dictSet m k v) k' = dictGet m k' := by
  induction m with
  | nil => simp [dictGet, dictSet, h]
  | cons hd tl ih =>
      obtain ⟨k₀, v₀⟩ := hd
      by_cases h0 : k₀ = k
      · subst h0
        simp [dictGet, dictSet, h]
      · simp [dictGet, dictSet, h0, ih]

theorem dictSet_eq_append {α β : Type} [DecidableEq α]
    (m : List (α × β)) (k : α) (v : β) (h : k ∉ m.map Prod.fst) :
    dictSet m k v = m ++ [(k, v)] := by
  induction m with
  | nil => simp [dictSet]
  | cons hd tl ih =>
      obtain ⟨k₀, v₀⟩ := hd
      simp only [List.map_cons, List.mem_cons] at h
      push_neg at h
      have hne : ¬ k₀ = k := fun hh => h.1 hh.symm
      simp [dictSet, hne, ih h.2]

theorem dictGet_of_mem_nodup {α β : Type} [DecidableEq α]
    (m : List (α × β)) (k : α) (v : β)
    (hmem : (k, v) ∈ m) (hnd : (m.map Prod.fst).Nodup) :
    dictGet m k = some v := by
  induction m with
  | nil => simp at hmem
  | cons hd tl ih =>
      obtain ⟨k₀, v₀⟩ := hd
      simp only [List.map_cons, List.nodup_cons] at hnd
      rcases List.mem_cons.mp hmem with h | h
      · obtain ⟨h1, h2⟩ := Prod.mk.injEq .. ▸ h.symm
        simp [dictGet, h1.symm, h2]
      · have hk : k₀ ≠ k := by
          intro he
          exact hnd.1 (he ▸ (List.mem_map.mpr ⟨(k, v), h, rfl⟩))
        simp [dictGet, hk, ih h hnd.2]

theorem dictSetList_cons {α β : Type} [DecidableEq α]
    (m : List (α × β)) (k : α) (v : β) (l : List (α × β)) :
    dictSetList m ((k, v) :: l) = dictSetList (dictSet m k v) l := rfl

theorem dictSetList_append {α β : Type} [DecidableEq α]
    (m : List (α × β)) (l1 l2 : List (α × β)) :
    dictSetList m (l1 ++ l2) = dictSetList (dictSetList m l1) l2 := by
  simp [dictSetList, List.foldl_append]

theorem dictSetList_eq_append {α β : Type} [DecidableEq α]
    (m : List (α × β)) (l : List (α × β))
    (hdisj : ∀ k ∈ l.map Prod.fst, k ∉ m.map Prod.fst)
    (hnd : (l.map Prod.fst).Nodup) :
    dictSetList m l = m ++ l := by
  induction l generalizing m with
  | nil => simp [dictSetList]
  | cons hd tl ih =>
      obtain ⟨k, v⟩ := hd
      simp only [List.map_cons, List.nodup_cons] at hnd
      rw [dictSetList_cons, dictSet_eq_append m k v (hdisj k (by simp))]
      rw [ih (m ++ [(k, v)]) ?_ hnd.2]
      · simp
      · intro k' hk'
        simp only [List.map_append, List.mem_append, List.map_cons, List.map_nil,
          List.mem_singleton, List.mem_cons]
        push_neg
        refine ⟨fun hmem => hdisj k' (by simp [hk']) hmem, ?_, by simp⟩
        intro he
        exact hnd.1 (he ▸ hk')

/-! ## Helper lemmas: the snapshot fold equals the entity enumeration -/

theorem descs_foldl (s : Service) (c : Characteristic)
    (ds : List Descriptor) (r : List (String × EntityProps)) :
    ds.foldl (gmoDescStep s c) r =
      dictSetList r (ds.map fun d => (descPath s c d, Descriptor.get_properties s c d)) := by
  induction ds generalizing r with
  | nil => rfl
  | cons d ds ih =>
      rw [List.foldl_cons, ih, List.map_cons, dictSetList_cons]
      rfl

theorem chrcs_foldl (s : Service) (cs : List Characteristic)
    (r : List (String × EntityProps)) :
    cs.foldl (gmoChrcStep s) r = dictSetList r (cs.flatMap (chrcEntries s)) := by
  induction cs generalizing r with
  | nil => rfl
  | cons c cs ih =>
      rw [List.foldl_cons, ih, List.flatMap_cons, dictSetList_append]
      congr 1
      rw [chrcEntries, dictSetList_cons, ← descs_foldl]
      rfl

theorem services_foldl (ss : List Service) (r : List (String × EntityProps)) :
    ss.foldl gmoServiceStep r = dictSetList r (ss.flatMap serviceEntries) := by
  induction ss generalizing r with
  | nil => rfl
  | cons s ss ih =>
      rw [List.foldl_cons, ih, List.flatMap_cons, dictSetList_append]
      congr 1
      rw [serviceEntries, dictSetList_cons, ← chrcs_foldl]
      rfl

theorem gmo_eq_dictSetList (app : Application) :
    app.GetManagedObjects = dictSetList [] app.entityEntries := by
  rw [Application.GetManagedObjects, services_foldl]
  rfl

theorem gmo_eq_entityEntries (app : Application)
    (h : app.entityPaths.Nodup) :
    app.GetManagedObjects = app.entityEntries := by
  rw [gmo_eq_dictSetList,
    dictSetList_eq_append [] app.entityEntries (by simp) h]
  simp

theorem service_entry_mem (app : Application) (s : Service)
    (hs : s ∈ app.services) :
    (servicePath s, s.get_properties) ∈ app.entityEntries :=
  List.mem_flatMap.mpr ⟨s, hs, by simp [serviceEntries]⟩

theorem chrc_entry_mem (app : Application) (s : Service) (c : Characteristic)
    (hs : s ∈ app.services) (hc : c ∈ s.characteristics) :
    (chrcPath s c, Characteristic.get_properties s c) ∈ app.entityEntries :=
  List.mem_flatMap.mpr ⟨s, hs, by
    simp only [serviceEntries, List.mem_cons]
    exact Or.inr (List.mem_flatMap.mpr ⟨c, hc, by simp [chrcEntries]⟩)⟩

theorem desc_entry_mem (app : Application) (s : Service) (c : Characteristic)
    (d : Descriptor) (hs : s ∈ app.services) (hc : c ∈ s.characteristics)
    (hd : d ∈ c.descriptors) :
    (descPath s c d, Descriptor.get_properties s c d) ∈ app.entityEntries :=
  List.mem_flatMap.mpr ⟨s, hs, by
    simp only [serviceEntries, List.mem_cons]
    refine Or.inr (List.mem_flatMap.mpr ⟨c, hc, ?_⟩)
    simp only [chrcEntries, List.mem_cons]
    exact Or.inr (List.mem_map.mpr ⟨d, hd, rfl⟩)⟩

/-! ## The claims -/

/-- C1: for every Application tree (with the data-model invariant that
entity paths are unique within the tree), `GetManagedObjects` returns a
mapping with exactly one entry for every live entity — the key list of the
snapshot is exactly the list of entity paths in traversal order, and each
entity's path looks up to exactly its own full property set — and each
entry's top-level key set is exactly the singleton of that entity's own
interface name. -/
theorem getManagedObjects_snapshot (app : Application)
    (h : app.entityPaths.Nodup) :
    app.GetManagedObjects = app.entityEntries
  ∧ (∀ s ∈ app.services,
       dictGet app.GetManagedObjects (servicePath s) =
         some (Service.get_properties s))
  ∧ (∀ s ∈ app.services, ∀ c ∈ s.characteristics,
       dictGet app.GetManagedObjects (chrcPath s c) =
         some (Characteristic.get_properties s c))
  ∧ (∀ s ∈ app.services, ∀ c ∈ s.characteristics, ∀ d ∈ c.descriptors,
       dictGet app.GetManagedObjects (descPath s c d) =
         some (Descriptor.get_properties s c d))
  ∧ (∀ s : Service, (Service.get_properties s).map Prod.fst = [GATT_SERVICE_IFACE])
  ∧ (∀ (s : Service) (c : Characteristic),
       (Characteristic.get_properties s c).map Prod.fst = [GATT_CHRC_IFACE])
  ∧ (∀ (s : Service) (c : Characteristic) (d : Descriptor),
       (Descriptor.get_properties s c d).map Prod.fst = [GATT_DESC_IFACE]) := by
  have hnd : (app.entityEntries.map Prod.fst).Nodup := h
  refine ⟨gmo_eq_entityEntries app h, ?_, ?_, ?_, fun s => rfl, fun s c => rfl,
    fun s c d => rfl⟩
  · intro s hs
    rw [gmo_eq_entityEntries app h]
    exact dictGet_of_mem_nodup _ _ _ (service_entry_mem app s hs) hnd
  · intro s hs c hc
    rw [gmo_eq_entityEntries app h]
    exact dictGet_of_mem_nodup _ _ _ (chrc_entry_mem app s c hs hc) hnd
  · intro s hs c hc d hd
    rw [gmo_eq_entityEntries app h]
    exact dictGet_of_mem_nodup _ _ _ (desc_entry_mem app s c d hs hc hd) hnd

/-- Witness for C1: the snapshot of the application actually constructed by
`Application.__init__` contains the encrypt characteristic's entry, keyed by
its path, holding its full property set. -/
theorem getManagedObjects_snapshot_witness :
    dictGet theApplication.GetManagedObjects
        (chrcPath (VivaldiS1Service 2) (TestEncryptCharacteristic 1)) =
      some (Characteristic.get_properties (VivaldiS1Service 2)
        (TestEncryptCharacteristic 1)) :=
  (getManagedObjects_snapshot theApplication (by decide)).2.2.1
    (VivaldiS1Service 2) (by decide) (TestEncryptCharacteristic 1) (by decide)

/-- C2: for every service, characteristic and descriptor, `GetAll` with an
interface other than the entity's own fails `InvalidArgs`, and `GetAll`
with the entity's own interface returns exactly the property mapping that
its snapshot entry holds for that interface. -/
theorem getAll_interface_dispatch (s : Service) (c : Characteristic)
    (d : Descriptor) (iface : String) :
    (iface ≠ GATT_SERVICE_IFACE →
       Service.GetAll s iface = .error .InvalidArgs)
  ∧ (∀ m, dictGet s.get_properties GATT_SERVICE_IFACE = some m →
       Service.GetAll s GATT_SERVICE_IFACE = .ok m)
  ∧ (iface ≠ GATT_CHRC_IFACE →
       Characteristic.GetAll s c iface = .error .InvalidArgs)
  ∧ (∀ m, dictGet (Characteristic.get_properties s c) GATT_CHRC_IFACE = some m →
       Characteristic.GetAll s c GATT_CHRC_IFACE = .ok m)
  ∧ (iface ≠ GATT_DESC_IFACE →
       Descriptor.GetAll s c d iface = .error .InvalidArgs)
  ∧ (∀ m, dictGet (Descriptor.get_properties s c d) GATT_DESC_IFACE = some m →
       Descriptor.GetAll s c d GATT_DESC_IFACE = .ok m) := by
  refine ⟨fun h => by simp [Service.GetAll, h],
    fun m hm => by simp [Service.GetAll, hm],
    fun h => by simp [Characteristic.GetAll, h],
    fun m hm => by simp [Characteristic.GetAll, hm],
    fun h => by simp [Descriptor.GetAll, h],
    fun m hm => by simp [Descriptor.GetAll, hm]⟩

/-- Witness for C2, at the entities of the constructed tree: a mismatched
interface name is rejected with `InvalidArgs` for each entity kind, and the
matching interface returns the snapshot entry's inner mapping. -/
theorem getAll_interface_dispatch_witness :
    Service.GetAll (VivaldiS1Service 2) GATT_CHRC_IFACE =
      .error .InvalidArgs
  ∧ Characteristic.GetAll (VivaldiS1Service 2) (TestCharacteristic 0)
      DBUS_PROP_IFACE = .error .InvalidArgs
  ∧ Descriptor.GetAll (VivaldiS1Service 2) (TestCharacteristic 0)
      (TestDescriptor 0) GATT_CHRC_IFACE = .error .InvalidArgs
  ∧ Descriptor.GetAll (VivaldiS1Service 2) (TestCharacteristic 0)
      (TestDescriptor 0) GATT_DESC_IFACE =
      .ok [("Characteristic", PropValue.str "/org/bluez/example/service2/char0"),
           ("UUID", PropValue.str "12345678-1234-5678-1234-56789abcdef2"),
           ("Flags", PropValue.flags ["read", "write"])] :=
  ⟨(getAll_interface_dispatch (VivaldiS1Service 2) (TestCharacteristic 0)
      (TestDescriptor 0) GATT_CHRC_IFACE).1 (by decide),
   (getAll_interface_dispatch (VivaldiS1Service 2) (TestCharacteristic 0)
      (TestDescriptor 0) DBUS_PROP_IFACE).2.2.1 (by decide),
   (getAll_interface_dispatch (VivaldiS1Service 2) (TestCharacteristic 0)
      (TestDescriptor 0) GATT_CHRC_IFACE).2.2.2.2.1 (by decide),
   (getAll_interface_dispatch (VivaldiS1Service 2) (TestCharacteristic 0)
      (TestDescriptor 0) GATT_CHRC_IFACE).2.2.2.2.2 _ (by decide)⟩

/-- C3 counterexample: in the tree actually constructed, the FIRST
descriptor constructed under the encrypt characteristic (sibling position
0) carries suffix index 2, so its path is `<chrc-path>/desc2`, not the
`<chrc-path>/desc0` that construction-order indexing would require. -/
theorem chrc_desc_path_order_counterexample :
    ¬ pathsMatchConstructionOrder theApplication := by
  intro hclaim
  have hs := hclaim (VivaldiS1Service 2) (by decide)
  have hc := hs.2 (TestEncryptCharacteristic 1) (by decide)
  have h0 := hc ⟨0, by decide⟩
  revert h0
  decide

/-- C3 amended: every characteristic's path is its owning service's path
followed by `/char<N>`, and every descriptor's path is its owning
characteristic's path followed by `/desc<N>`, where `N` is the index
argument supplied at construction; in the constructed tree those indices —
and hence the sibling paths — are unique among siblings, but `N` does not
always equal the construction position (the encrypt and secure
characteristics construct their first descriptors with indices 2 and 3). -/
theorem chrc_desc_paths_amended :
    (∀ (s : Service) (c : Characteristic),
       chrcPath s c = servicePath s ++ "/char" ++ toString c.index)
  ∧ (∀ (s : Service) (c : Characteristic) (d : Descriptor),
       descPath s c d = chrcPath s c ++ "/desc" ++ toString d.index)
  ∧ siblingIndicesNodup theApplication
  ∧ theApplication.entityPaths.Nodup :=
  ⟨fun s c => rfl, fun s c d => rfl, by unfold siblingIndicesNodup; decide,
   by decide⟩

/-- C4 counterexample: the tree contains a descriptor —
`TestEncryptDescriptor(2)`, the first descriptor of the encrypt
characteristic — whose owning characteristic's flags lack
`writable-auxiliaries`, yet `WriteValue` on it fails `NotSupported`
(falling to the base default), not `NotPermitted`. -/
theorem descriptor_write_error_counterexample :
    (theApplication.services.flatMap Service.characteristics).get? 1 =
      some (TestEncryptCharacteristic 1)
  ∧ "writable-auxiliaries" ∉ (TestEncryptCharacteristic 1).flags
  ∧ (TestEncryptCharacteristic 1).descriptors.get? 0 =
      some (TestEncryptDescriptor 2)
  ∧ DescriptorImpl.WriteValue .testEncryptDescriptor [0] [] =
      (some DBusError.NotSupported, .testEncryptDescriptor)
  ∧ DBusError.NotSupported ≠ DBusError.NotPermitted := by
  refine ⟨by decide, by decide, by decide, rfl, by decide⟩

/-- C4 amended: for every `CharacteristicUserDescriptionDescriptor` (the
one descriptor class that overrides `WriteValue` with a writability check)
whose owning characteristic's flags did not contain `writable-auxiliaries`
when the descriptor was constructed, every `WriteValue` call — any value,
any options, any current stored value — fails `NotPermitted` and leaves the
descriptor's state (including its stored value) unchanged. -/
theorem cud_nonwritable_writeValue (chrcFlags : List String)
    (value₀ value : List Nat) (options : Options)
    (h : "writable-auxiliaries" ∉ chrcFlags) :
    DescriptorImpl.WriteValue
        (.characteristicUserDescriptionDescriptor
          (chrcFlags.contains "writable-auxiliaries") value₀) value options =
      (some DBusError.NotPermitted,
       .characteristicUserDescriptionDescriptor
         (chrcFlags.contains "writable-auxiliaries") value₀) := by
  have hc : chrcFlags.contains "writable-auxiliaries" = false := by
    simpa using h
  simp [DescriptorImpl.WriteValue, hc, h]

/-- Witness for C4's amended claim: a user-description descriptor
constructed on the encrypt characteristic's flags rejects a write with
`NotPermitted` and keeps its stored value. -/
theorem cud_nonwritable_writeValue_witness :
    DescriptorImpl.WriteValue
        (.characteristicUserDescriptionDescriptor
          ((["encrypt-read", "encrypt-write"] : List String).contains
            "writable-auxiliaries") cudInitialValue) [1, 2] [] =
      (some DBusError.NotPermitted,
       .characteristicUserDescriptionDescriptor
         ((["encrypt-read", "encrypt-write"] : List String).contains
           "writable-auxiliaries") cudInitialValue) :=
  cud_nonwritable_writeValue ["encrypt-read", "encrypt-write"]
    cudInitialValue [1, 2] [] (by decide)

/-- C5: the base-class `ReadValue` / `WriteValue` / `StartNotify` /
`StopNotify` fail `NotSupported` for every input; no concrete
characteristic class overrides the notify pair, so every characteristic
instance falls to the default there; and `TestDescriptor` (which overrides
only `ReadValue`) falls to the base `WriteValue` default and fails
`NotSupported` with its state unchanged. -/
theorem default_methods_notSupported (value : List Nat) (options : Options)
    (c : CharacteristicImpl) :
    Characteristic.ReadValue options = .error .NotSupported
  ∧ Characteristic.WriteValue value options = some .NotSupported
  ∧ Characteristic.StartNotify = some .NotSupported
  ∧ Characteristic.StopNotify = some .NotSupported
  ∧ Descriptor.ReadValue options = .error .NotSupported
  ∧ Descriptor.WriteValue value options = some .NotSupported
  ∧ c.StartNotify = some .NotSupported
  ∧ c.StopNotify = some .NotSupported
  ∧ DescriptorImpl.WriteValue .testDescriptor value options =
      (some .NotSupported, .testDescriptor) :=
  ⟨rfl, rfl, rfl, rfl, rfl, rfl, rfl, rfl, rfl⟩

theorem mem_optEntry_keys {α : Type} (key k : String) (o : Option α)
    (f : α → AdvValue) :
    k ∈ (optEntry key o f).map Prod.fst ↔ k = key ∧ o.isSome := by
  cases o <;> simp [optEntry]

theorem exists_pair_mem_optEntry {α : Type} (key k : String) (o : Option α)
    (f : α → AdvValue) :
    (∃ x, (k, x) ∈ optEntry key o f) ↔ k = key ∧ o.isSome := by
  cases o <;> simp [optEntry]

/-- C6: the emitted advertisement property dict always contains `Type`,
contains each optional key exactly when the corresponding field is set
(not `None`), and the example advertisement with only
`local_name="Vivaldi"` and `include_tx_power=true` set yields exactly the
keys `Type`, `LocalName`, `IncludeTxPower`. -/
theorem advertisement_properties_keys (a : Advertisement) :
    ("Type" ∈ a.adProperties.map Prod.fst
  ∧ ("ServiceUUIDs" ∈ a.adProperties.map Prod.fst ↔ a.service_uuids.isSome)
  ∧ ("SolicitUUIDs" ∈ a.adProperties.map Prod.fst ↔ a.solicit_uuids.isSome)
  ∧ ("ManufacturerData" ∈ a.adProperties.map Prod.fst ↔
       a.manufacturer_data.isSome)
  ∧ ("ServiceData" ∈ a.adProperties.map Prod.fst ↔ a.service_data.isSome)
  ∧ ("LocalName" ∈ a.adProperties.map Prod.fst ↔ a.local_name.isSome)
  ∧ ("IncludeTxPower" ∈ a.adProperties.map Prod.fst ↔
       a.include_tx_power.isSome)
  ∧ ("Data" ∈ a.adProperties.map Prod.fst ↔ a.data.isSome))
  ∧ ({ (Advertisement.init "peripheral").add_local_name "Vivaldi" with
        include_tx_power := some true } : Advertisement).adProperties.map
      Prod.fst = ["Type", "LocalName", "IncludeTxPower"] := by
  constructor
  · refine ⟨?_, ?_, ?_, ?_, ?_, ?_, ?_, ?_⟩ <;>
      simp [Advertisement.adProperties, mem_optEntry_keys,
        exists_pair_mem_optEntry]
  · decide

/-- C7: `RequestPinCode` and `RequestPasskey` mark the device trusted
before returning their reply; `RequestConfirmation` answered `"yes"` marks
the device trusted before returning; answered anything else it fails
`Rejected` with no trust side effect; `RequestAuthorization` answered
anything but `"yes"` fails `Rejected` with no trust side effect. -/
theorem agent_trust_and_rejection (device answer : String) (passkey : Nat) :
    Agent.RequestPinCode device answer =
      ([Effect.setTrusted device], .ok answer)
  ∧ Agent.RequestPasskey device answer =
      ([Effect.setTrusted device], .ok answer)
  ∧ (answer = "yes" →
       Agent.RequestConfirmation device passkey answer =
         ([Effect.setTrusted device], .ok ()))
  ∧ (answer ≠ "yes" →
       Agent.RequestConfirmation device passkey answer =
         ([], .error .Rejected))
  ∧ (answer ≠ "yes" →
       Agent.RequestAuthorization device answer = ([], .error .Rejected)) :=
  ⟨rfl, rfl,
   fun h => by simp [Agent.RequestConfirmation, h],
   fun h => by simp [Agent.RequestConfirmation, h],
   fun h => by simp [Agent.RequestAuthorization, h]⟩

/-- Witness for C7 at a concrete device path and concrete replies. -/
theorem agent_trust_and_rejection_witness :
    Agent.RequestConfirmation "/org/bluez/hci0/dev_AA" 0 "yes" =
      ([Effect.setTrusted "/org/bluez/hci0/dev_AA"], .ok ())
  ∧ Agent.RequestConfirmation "/org/bluez/hci0/dev_AA" 0 "no" =
      ([], .error .Rejected)
  ∧ Agent.RequestAuthorization "/org/bluez/hci0/dev_AA" "no" =
      ([], .error .Rejected) :=
  ⟨(agent_trust_and_rejection "/org/bluez/hci0/dev_AA" "yes" 0).2.2.1 rfl,
   (agent_trust_and_rejection "/org/bluez/hci0/dev_AA" "no" 0).2.2.2.1
     (by decide),
   (agent_trust_and_rejection "/org/bluez/hci0/dev_AA" "no" 0).2.2.2.2
     (by decide)⟩

/-- C8: across every effect-bearing callback entry point of the program, a
`mainloop.quit()` occurs exactly on the application-registration error
callback, the advertisement-registration error callback, and the agent's
`Release` when (and only when) `exit_on_release` is set. -/
theorem mainloop_quit_paths (e : Bool) (device uuid answer : String)
    (h : Handler) :
    Effect.quitMainLoop ∈ handlerEffects e device uuid answer h ↔
      (h = .registerAppErrorCb ∨ h = .registerAdErrorCb ∨
        (h = .agentRelease ∧ e = true)) := by
  by_cases hans : answer = "yes" <;>
    cases h <;> cases e <;>
      simp [handlerEffects, register_app_cb, register_app_error_cb,
        register_ad_cb, register_ad_error_cb, Advertisement.Release,
        Agent.Release, Agent.AuthorizeService, Agent.RequestPinCode,
        Agent.RequestPasskey, Agent.DisplayPasskey, Agent.DisplayPinCode,
        Agent.RequestConfirmation, Agent.RequestAuthorization, Agent.Cancel,
        hans]

/-- C9: adding service data under two distinct UUID keys, in sequence,
yields a service-data map holding both keys, the first mapped to its own
payload (untouched by the second call) and the second to its own. -/
theorem add_service_data_two_keys (a : Advertisement)
    (uuid_a uuid_b : String) (data1 data2 : List Nat)
    (h : uuid_a ≠ uuid_b) :
    dictGet
        (((a.add_service_data uuid_a data1).add_service_data uuid_b
          data2).service_data.getD []) uuid_a = some data1
  ∧ dictGet
        (((a.add_service_data uuid_a data1).add_service_data uuid_b
          data2).service_data.getD []) uuid_b = some data2 := by
  constructor
  · show dictGet
        (dictSet (dictSet (a.service_data.getD []) uuid_a data1) uuid_b
          data2) uuid_a = some data1
    rw [dictGet_dictSet_ne _ _ _ _ (Ne.symm h), dictGet_dictSet_self]
  · show dictGet
        (dictSet (dictSet (a.service_data.getD []) uuid_a data1) uuid_b
          data2) uuid_b = some data2
    rw [dictGet_dictSet_self]

/-- Witness for C9 on a fresh advertisement and two concrete UUIDs. -/
theorem add_service_data_two_keys_witness :
    dictGet
        ((((Advertisement.init "peripheral").add_service_data "9999"
          [0, 1]).add_service_data "180d" [2, 3]).service_data.getD [])
        "9999" = some [0, 1]
  ∧ dictGet
        ((((Advertisement.init "peripheral").add_service_data "9999"
          [0, 1]).add_service_data "180d" [2, 3]).service_data.getD [])
        "180d" = some [2, 3] :=
  add_service_data_two_keys (Advertisement.init "peripheral") "9999" "180d"
    [0, 1] [2, 3] (by decide)

/-- C10: `add_manufacturer_data`, `add_service_data` and `add_data` give
the supplied key the newly supplied payload (overwriting any payload the
key held before) while every other key's lookup is unchanged, and
`add_local_name` unconditionally overwrites the stored local name. -/
theorem add_payload_last_write_wins (a : Advertisement) (k k' : Nat)
    (u u' : String) (dnew : List Nat) (name : String)
    (hk : k' ≠ k) (hu : u' ≠ u) :
    dictGet ((a.add_manufacturer_data k dnew).manufacturer_data.getD []) k =
      some dnew
  ∧ dictGet ((a.add_manufacturer_data k dnew).manufacturer_data.getD []) k' =
      dictGet (a.manufacturer_data.getD []) k'
  ∧ dictGet ((a.add_service_data u dnew).service_data.getD []) u = some dnew
  ∧ dictGet ((a.add_service_data u dnew).service_data.getD []) u' =
      dictGet (a.service_data.getD []) u'
  ∧ dictGet ((a.add_data k dnew).data.getD []) k = some dnew
  ∧ dictGet ((a.add_data k dnew).data.getD []) k' =
      dictGet (a.data.getD []) k'
  ∧ (a.add_local_name name).local_name = some name := by
  refine ⟨dictGet_dictSet_self _ _ _,
    dictGet_dictSet_ne _ _ _ _ (Ne.symm hk),
    dictGet_dictSet_self _ _ _,
    dictGet_dictSet_ne _ _ _ _ (Ne.symm hu),
    dictGet_dictSet_self _ _ _,
    dictGet_dictSet_ne _ _ _ _ (Ne.symm hk),
    rfl⟩

/-- Witness for C10: replacing the payload under the manufacturer code
0xFFFF of `TestAdvertisement` keeps nothing of the old payload under that
key and leaves other keys alone. -/
theorem add_payload_last_write_wins_witness :
    dictGet ((TestAdvertisement.add_manufacturer_data 0xFFFF
        [9]).manufacturer_data.getD []) 0xFFFF = some [9]
  ∧ dictGet ((TestAdvertisement.add_manufacturer_data 0xFFFF
        [9]).manufacturer_data.getD []) 0xFFFE =
      dictGet (TestAdvertisement.manufacturer_data.getD []) 0xFFFE
  ∧ (TestAdvertisement.add_local_name "Other").local_name = some "Other" :=
  ⟨(add_payload_last_write_wins TestAdvertisement 0xFFFF 0xFFFE "9999"
      "180d" [9] "Other" (by decide) (by decide)).1,
   (add_payload_last_write_wins TestAdvertisement 0xFFFF 0xFFFE "9999"
      "180d" [9] "Other" (by decide) (by decide)).2.1,
   (add_payload_last_write_wins TestAdvertisement 0xFFFF 0xFFFE "9999"
      "180d" [9] "Other" (by decide) (by decide)).2.2.2.2.2.2⟩
